import Mathlib

/-!
Shallow embedding of `client/api.go` from the coda-go-client repository.

Conventions:
* Go channels are not modelled as channels; instead every function records the
  operations it would perform on a channel (sends, close, acknowledgments) in
  its result, and the engine's `select` nondeterminism is modelled by an
  explicit choice parameter constrained by a validity predicate that follows
  Go's select semantics (the `default` case fires only when no communication
  case is ready; among ready communication cases the choice is arbitrary).
* The outcome of the external world in one delivery cycle (whether the
  websocket dial, send and receive succeed, and which message is received) is
  a `TransportWorld` record passed to the step function.
* The query-string constants live in the `types` package, which is outside
  the sources; they are carried as an explicit `TypesQueries` record so that
  nothing about their content is assumed.
-/

/-- The three subscription query documents from the `types` package.
Modelled from the spec: the `types` package source is not available; the spec
treats query documents as opaque strings supplied by a collaborator. -/
structure TypesQueries where
  newBlockSubscriptionQuery : String
  syncUpdateSubscriptionQuery : String
  blockConfirmationSubscriptionQuery : String
deriving DecidableEq

/-- Go: `var subscriptionEventsQueries = map[string]string{...}`.
Reading a missing key from a Go `map[string]string` yields the zero value
`""`, which the `else` branch reproduces. -/
def subscriptionEventsQueries (q : TypesQueries) (t : String) : String :=
  if t = "NewBlock" then q.newBlockSubscriptionQuery
  else if t = "SyncUpdate" then q.syncUpdateSubscriptionQuery
  else if t = "BlockConfirmation" then q.blockConfirmationSubscriptionQuery
  else ""

/-- Go: `types.Event`. The two channels of the Go struct (`Response`,
`Unsubscribe`) are not state; operations on them are recorded in the engine's
step output. `Type` is rendered as `typeName`. -/
structure Event where
  typeName : String
  query : String
  subscribed : Bool
  count : Nat
deriving DecidableEq

/-- Go: `types.SubscriptionResponse` — the message decoded from the websocket
receive; only its `Type` field is inspected by `api.go` (it is logged). -/
structure SubscriptionResponse where
  msgType : String
deriving DecidableEq

/-- Go: `types.ResponseData{Host, Type, Data}`. -/
structure ResponseData where
  host : String
  typeName : String
  data : SubscriptionResponse
deriving DecidableEq

/-- Go: `Client`. The registry map becomes an association list (first match
wins, like a Go map with at most one entry per key); `hub *Hub` becomes the
flag `hasHub` since only its nilness is examined by `subscribe`. -/
structure Client where
  subscriptionEvents : List (String × Event)
  endpoint : String
  hasHub : Bool
deriving DecidableEq

/-- Go: `createEvent(t)` — fresh event with `Subscribed: false, Count: 0` and
the query statically associated with `t`. -/
def createEvent (q : TypesQueries) (t : String) : Event :=
  { typeName := t
    query := subscriptionEventsQueries q t
    subscribed := false
    count := 0 }

/-- Go: `(*Client).getEvent(t)` — return the existing entry, else create,
insert and return a fresh one. -/
def Client.getEvent (q : TypesQueries) (c : Client) (t : String) : Event × Client :=
  match c.subscriptionEvents.lookup t with
  | some event => (event, c)
  | none =>
    let event := createEvent q t
    (event, { c with subscriptionEvents := (t, event) :: c.subscriptionEvents })

/-! ## The subscription engine (`(*Client).subscribe`) -/

/-- Which `select` case the Go runtime picks in one loop iteration. -/
inductive SelectChoice
  | deflt
  | unsubscribeCase
  | ctxDoneCase
deriving DecidableEq

/-- Go `select` semantics: `default` runs only when no communication case is
ready; any ready communication case may be chosen (the runtime picks
pseudo-randomly among ready cases, so the choice is nondeterministic).
`unsubReady` means a value is pending on `event.Unsubscribe`; `ctxReady`
means `ctx.Done()` is closed. -/
def validChoice (unsubReady ctxReady : Bool) : SelectChoice → Bool
  | .deflt => !unsubReady && !ctxReady
  | .unsubscribeCase => unsubReady
  | .ctxDoneCase => ctxReady

/-- The external world's behaviour during one delivery cycle: whether
`websocket.Dial`, `websocket.JSON.Send` and `websocket.JSON.Receive` succeed,
and the message value left in `m` after the receive. -/
structure TransportWorld where
  dialOk : Bool
  sendOk : Bool
  recvOk : Bool
  recvMsg : SubscriptionResponse
deriving DecidableEq

/-- The log lines `subscribe` can emit, one constructor per `log.*` call site. -/
inductive LogEntry
  | eventIsNil
  | exitSubscription (t : String)
  | connectingTo (url : String)
  | dialError
  | subscriptionType (t : String)
  | sendError
  | receiveError
  | receiveType (t : String)
  | unsubscribedFrom (endpoint t : String)
deriving DecidableEq

/-- Go: `types.SubscribeDataQuery{Type, Id, Payload: SubscribeQuery{Query}}` —
the start-subscription frame sent on the websocket. -/
structure SubscribeDataQuery where
  frameType : String
  id : String
  payloadQuery : String
deriving DecidableEq

/-- Where a `ResponseData` is delivered: the event's own `Response` channel
when `c.hub == nil`, the hub's `SubscriptionData` channel otherwise. -/
inductive DeliveryTarget
  | eventChannel
  | hub
deriving DecidableEq

/-- Everything one loop iteration of `subscribe` does besides updating the
event: log lines, frames passed to `Send`, deliveries, whether `true` was
sent back on `event.Unsubscribe`, seconds slept, and whether the iteration
executed `return`. -/
structure StepOutput where
  logs : List LogEntry
  sentFrames : List SubscribeDataQuery
  delivered : List (DeliveryTarget × ResponseData)
  ack : Bool
  sleepSeconds : Nat
  exit : Bool
deriving DecidableEq

/-- Go: `strings.Replace(s, "http", "ws", -1)` specialised to its constant
arguments — every non-overlapping occurrence of `http`, scanned left to
right, becomes `ws`. -/
def replaceHttpWs : List Char → List Char
  | 'h' :: 't' :: 't' :: 'p' :: rest => 'w' :: 's' :: replaceHttpWs rest
  | c :: rest => c :: replaceHttpWs rest
  | [] => []

/-- The streaming URL computed at the top of the delivery cycle:
`url := strings.Replace(c.Endpoint, "http", "ws", -1)`. -/
def wsUrl (endpoint : String) : String :=
  String.mk (replaceHttpWs endpoint.data)

/-- One iteration of the `for { select { ... } }` loop of
`(*Client).subscribe`, given the runtime's `select` choice and the
transport world's behaviour. Mirrors the source line by line:
the `default` case marks the event subscribed, dials (a dial error is logged
and the engine returns), sends the start frame (a send error is only
logged), receives one message (a receive error is only logged), closes the
connection, builds `ResponseData`, increments `Count`, delivers to the hub
if present and otherwise to the event channel, and sleeps one second; the
`Unsubscribe` case logs, sends `true` back and returns; the `ctx.Done` case
returns. -/
def subscribeStep (c : Client) (ev : Event) (choice : SelectChoice)
    (w : TransportWorld) : Event × StepOutput :=
  match choice with
  | .deflt =>
    let ev1 := { ev with subscribed := true }
    let url := wsUrl c.endpoint
    if w.dialOk then
      let d2 : SubscribeDataQuery :=
        { frameType := "start", id := "1", payloadQuery := ev1.query }
      let sendLog : List LogEntry := if w.sendOk then [] else [.sendError]
      let recvLog : List LogEntry := if w.recvOk then [] else [.receiveError]
      let responseData : ResponseData :=
        { host := c.endpoint, typeName := ev1.typeName, data := w.recvMsg }
      let target : DeliveryTarget := if c.hasHub then .hub else .eventChannel
      ({ ev1 with count := ev1.count + 1 },
       { logs := [.connectingTo url, .subscriptionType ev1.typeName] ++
           sendLog ++ recvLog ++ [.receiveType w.recvMsg.msgType]
         sentFrames := [d2]
         delivered := [(target, responseData)]
         ack := false
         sleepSeconds := 1
         exit := false })
    else
      (ev1,
       { logs := [.connectingTo url, .dialError]
         sentFrames := []
         delivered := []
         ack := false
         sleepSeconds := 0
         exit := true })
  | .unsubscribeCase =>
    (ev,
     { logs := [.unsubscribedFrom c.endpoint ev.typeName]
       sentFrames := []
       delivered := []
       ack := true
       sleepSeconds := 0
       exit := true })
  | .ctxDoneCase =>
    (ev,
     { logs := []
       sentFrames := []
       delivered := []
       ack := false
       sleepSeconds := 0
       exit := true })

/-- Accumulated observable behaviour of a run of the subscribe loop.
`acks` counts values sent back on `event.Unsubscribe`; `exited` records
whether the loop executed `return` within the given trace. -/
structure RunOutput where
  logs : List LogEntry
  sentFrames : List SubscribeDataQuery
  delivered : List (DeliveryTarget × ResponseData)
  acks : Nat
  exited : Bool
deriving DecidableEq

/-- The `for` loop of `subscribe`, driven by a finite trace of per-iteration
`select` choices and transport worlds. When an iteration returns, the
deferred `log.Println("Exit Subscribtion: ", event.Type)` fires and the rest
of the trace is ignored. -/
def subscribeLoop (c : Client) (ev : Event) :
    List (SelectChoice × TransportWorld) → Event × RunOutput
  | [] => (ev, { logs := [], sentFrames := [], delivered := [], acks := 0, exited := false })
  | (choice, w) :: rest =>
    let (ev1, o) := subscribeStep c ev choice w
    if o.exit then
      (ev1,
       { logs := o.logs ++ [.exitSubscription ev.typeName]
         sentFrames := o.sentFrames
         delivered := o.delivered
         acks := if o.ack then 1 else 0
         exited := true })
    else
      let (ev2, r) := subscribeLoop c ev1 rest
      (ev2,
       { logs := o.logs ++ r.logs
         sentFrames := o.sentFrames ++ r.sentFrames
         delivered := o.delivered ++ r.delivered
         acks := (if o.ack then 1 else 0) + r.acks
         exited := r.exited })

/-- Go: `(*Client).subscribe(ctx, event)`. The nil guard runs before the
deferred exit log is installed, so a nil event produces exactly the single
`"Event is nil"` line and an immediate return. -/
def Client.subscribe (c : Client) (ev : Option Event)
    (trace : List (SelectChoice × TransportWorld)) : Option Event × RunOutput :=
  match ev with
  | none =>
    (none, { logs := [.eventIsNil], sentFrames := [], delivered := [], acks := 0, exited := true })
  | some e =>
    let (e1, r) := subscribeLoop c e trace
    (some e1, r)

/-! ## The synchronous query facade -/

/-- The dynamic value held by the Go `variables interface{}` argument:
either a string (the high-level methods pass `""` when there are no
variables) or some JSON-encodable structure (the per-method payload
structs). -/
inductive GoValue
  | vstr (s : String)
  | vobj (fields : List (String × String))
deriving DecidableEq

/-- The shape of the JSON body POSTed by `makeHttpRequest`: first
`map[string]string{"query": query}` is marshalled, then, when
`variables != ""` (a Go interface comparison, true unless the dynamic value
is exactly the string `""`), it is replaced by the two-field `Payload`
struct. -/
inductive RequestBody
  | queryOnly (q : String)
  | withVariables (q : String) (v : GoValue)
deriving DecidableEq

/-- The body-construction part of `(*Client).makeHttpRequest`; `vars` is the
Go `variables interface{}` argument. -/
def makeHttpRequestBody (query : String) (vars : GoValue) : RequestBody :=
  if vars = .vstr "" then .queryOnly query
  else .withVariables query vars

/-- Whether a request body carries only the `query` field. -/
def RequestBody.isQueryOnly : RequestBody → Bool
  | .queryOnly _ => true
  | .withVariables _ _ => false

/-- How the HTTP exchange inside `makeHttpRequest` goes. Any error from
`http.NewRequest`, `httpClient.Do` or reading the body hits
`log.Fatalln`, which terminates the whole process, so `makeHttpRequest`
either halts the process or returns `(body, nil)` — its error result is
always nil. -/
inductive HttpOutcome
  | fatalHalt
  | ok (body : String)
deriving DecidableEq

/-- Result of running a Go function that may call `log.Fatalln`: either the
process halted, or the function returned a value. -/
inductive ProcResult (α : Type)
  | halted
  | returned (a : α)
deriving DecidableEq

/-- Go: `types.AbstractHttpResult` — the opaque decoded result envelope. -/
structure AbstractHttpResult where
  envelope : String
deriving DecidableEq

/-- An operation performed on the result channel by `getResponse`. -/
inductive ChanOp (α : Type)
  | send (a : α)
  | close
deriving DecidableEq

/-- Go: `getResponse(c, query, variables, ch)`, with the channel replaced by
the list of operations performed on it. `strip` models
`removeFromJsonString` and `decode` models `json.Decoder.Decode` into
`AbstractHttpResult` (both are collaborator code outside `api.go`; `decode`
returns `none` exactly when the decoder errors). Since `makeHttpRequest`
either halts the process or returns a nil error, the `err != nil` branch of
the source is unreachable; on a decode error the source sends `nil` on the
channel and returns without closing it; only the success path closes the
channel. -/
def getResponse (w : HttpOutcome) (strip : String → String)
    (decode : String → Option AbstractHttpResult) (hasChannel : Bool) :
    ProcResult (Option AbstractHttpResult × List (ChanOp (Option AbstractHttpResult))) :=
  match w with
  | .fatalHalt => .halted
  | .ok body =>
    match decode (strip body) with
    | none => .returned (none, if hasChannel then [.send none] else [])
    | some ds => .returned (some ds, if hasChannel then [.send (some ds), .close] else [])

/-- Go: `(*Client).getUniversalCh` — makes a channel of capacity 1, runs
`getResponse` with it in a goroutine, and returns the channel. The result is
the channel's capacity paired with the operations the goroutine performs on
it (or a process halt, since `log.Fatalln` in the goroutine kills the whole
process). -/
def getUniversalCh (w : HttpOutcome) (strip : String → String)
    (decode : String → Option AbstractHttpResult) :
    Nat × ProcResult (List (ChanOp (Option AbstractHttpResult))) :=
  (1,
   match getResponse w strip decode true with
   | .halted => .halted
   | .returned (_, ops) => .returned ops)

/-! ## Example fixtures used by counterexamples and witnesses -/

/-- A concrete query-constants record (contents irrelevant to every claim). -/
def qEx : TypesQueries :=
  { newBlockSubscriptionQuery := "newBlockQ"
    syncUpdateSubscriptionQuery := "syncUpdateQ"
    blockConfirmationSubscriptionQuery := "blockConfirmationQ" }

/-- A concrete client with an empty registry and no hub. -/
def cEx : Client :=
  { subscriptionEvents := [], endpoint := "http://localhost:3085", hasHub := false }

/-- A concrete event, as `createEvent` would build it for `"NewBlock"`. -/
def evEx : Event := createEvent qEx "NewBlock"

/-- A transport world where the dial fails. -/
def wDialFail : TransportWorld :=
  { dialOk := false, sendOk := true, recvOk := true, recvMsg := { msgType := "" } }

/-- A transport world where the dial and send succeed but the receive fails,
leaving `m` at its zero value. -/
def wRecvFail : TransportWorld :=
  { dialOk := true, sendOk := true, recvOk := false, recvMsg := { msgType := "" } }

/-- A fully successful transport world. -/
def wOk : TransportWorld :=
  { dialOk := true, sendOk := true, recvOk := true, recvMsg := { msgType := "data" } }

/-- A transport cycle failed at some step (dial, send or receive). -/
def transportFailed (w : TransportWorld) : Bool :=
  !w.dialOk || !w.sendOk || !w.recvOk

/-- The full round trip of a cycle succeeded. -/
def roundTripOk (w : TransportWorld) : Bool :=
  w.dialOk && w.sendOk && w.recvOk

/-! ## Theorems -/

/-- Claim C6: when the engine receives a value on the Event's unsubscribe
channel, it sends one acknowledgment back on the same channel, logs the
unsubscription, and terminates; regardless of the rest of the trace there
are no further deliveries and the Event (in particular its delivery
counter) is unchanged. -/
theorem unsubscribe_handshake_spec (c : Client) (ev : Event) (w : TransportWorld)
    (rest : List (SelectChoice × TransportWorld)) :
  subscribeStep c ev .unsubscribeCase w =
    (ev, { logs := [.unsubscribedFrom c.endpoint ev.typeName], sentFrames := [],
           delivered := [], ack := true, sleepSeconds := 0, exit := true }) ∧
  subscribeLoop c ev ((.unsubscribeCase, w) :: rest) =
    (ev, { logs := [.unsubscribedFrom c.endpoint ev.typeName, .exitSubscription ev.typeName],
           sentFrames := [], delivered := [], acks := 1, exited := true }) := by
  exact ⟨rfl, rfl⟩

/-- Claim C7: registry lookup returns the existing instance unchanged when
present; otherwise creates a fresh Event (zero counter, unsubscribed, query
statically associated with the type), inserts it and returns it; repeated
lookups of the same type return the identical instance with the registry
unchanged. -/
theorem getEvent_registry_spec (q : TypesQueries) (c : Client) (t : String) :
  ((c.getEvent q t).2.subscriptionEvents.lookup t = some (c.getEvent q t).1) ∧
  ((c.getEvent q t).2.getEvent q t = ((c.getEvent q t).1, (c.getEvent q t).2)) ∧
  (c.subscriptionEvents.lookup t = none →
    (c.getEvent q t).1 = createEvent q t ∧
    (c.getEvent q t).1.count = 0 ∧ (c.getEvent q t).1.subscribed = false ∧
    (c.getEvent q t).1.query = subscriptionEventsQueries q t ∧
    (c.getEvent q t).2.subscriptionEvents = (t, createEvent q t) :: c.subscriptionEvents) ∧
  (∀ e, c.subscriptionEvents.lookup t = some e → c.getEvent q t = (e, c)) := by
  cases h : c.subscriptionEvents.lookup t with
  | none =>
    refine ⟨?_, ?_, ?_, ?_⟩ <;>
      simp [Client.getEvent, h, List.lookup, createEvent]
  | some e =>
    refine ⟨?_, ?_, ?_, ?_⟩ <;>
      simp [Client.getEvent, h]

/-- Claim C8: a nil Event given to the engine is a logged no-op — exactly one
log entry, no frame sent, no delivery, no acknowledgment, no state change,
immediate return — for every client and every trace of worlds. -/
theorem subscribe_nil_event_spec (c : Client)
    (trace : List (SelectChoice × TransportWorld)) :
  c.subscribe none trace =
    (none, { logs := [.eventIsNil], sentFrames := [], delivered := [],
             acks := 0, exited := true }) := rfl

/-- Claim C9: the request body carries only the query field exactly when the
variables value is the empty string, and carries both the query and the
variables value otherwise. -/
theorem makeHttpRequestBody_spec (q : String) (v : GoValue) :
  (v = .vstr "" → makeHttpRequestBody q v = .queryOnly q) ∧
  (v ≠ .vstr "" → makeHttpRequestBody q v = .withVariables q v) ∧
  ((makeHttpRequestBody q v).isQueryOnly = true ↔ v = .vstr "") := by
  refine ⟨fun h => by simp [makeHttpRequestBody, h], fun h => by simp [makeHttpRequestBody, h], ?_⟩
  by_cases h : v = GoValue.vstr "" <;>
    simp [makeHttpRequestBody, h, RequestBody.isQueryOnly]

/-- Witness for C9 at concrete inputs, both with empty and non-empty
variables. -/
theorem makeHttpRequestBody_spec_witness :
  makeHttpRequestBody "q1" (.vstr "") = .queryOnly "q1" ∧
  makeHttpRequestBody "q2" (.vobj [("publicKey", "pk")]) =
    .withVariables "q2" (.vobj [("publicKey", "pk")]) :=
  ⟨(makeHttpRequestBody_spec "q1" (.vstr "")).1 rfl,
   (makeHttpRequestBody_spec "q2" (.vobj [("publicKey", "pk")])).2.1 (by decide)⟩

/-- Claim C10: a type name outside the three statically known subscription
types still gets a fresh registry entry, whose query document is the empty
string (the Go map's zero value), so a subscription cycle started for it
sends a start frame with an empty query. -/
theorem unknown_type_empty_query_spec (q : TypesQueries) (c : Client) (t : String)
    (h1 : t ≠ "NewBlock") (h2 : t ≠ "SyncUpdate") (h3 : t ≠ "BlockConfirmation")
    (h4 : c.subscriptionEvents.lookup t = none) (w : TransportWorld)
    (hw : w.dialOk = true) :
  (c.getEvent q t).1.query = "" ∧
  (c.getEvent q t).2.subscriptionEvents.lookup t = some (c.getEvent q t).1 ∧
  (subscribeStep c (c.getEvent q t).1 .deflt w).2.sentFrames =
    [{ frameType := "start", id := "1", payloadQuery := "" }] := by
  have hq : subscriptionEventsQueries q t = "" := by
    simp [subscriptionEventsQueries, h1, h2, h3]
  refine ⟨?_, ?_, ?_⟩ <;>
    simp [Client.getEvent, h4, List.lookup, createEvent, hq, subscribeStep, hw]

/-- Witness for C10: requesting the unknown type name Foo from an empty
registry yields an empty query and a start frame with an empty query. -/
theorem unknown_type_empty_query_spec_witness :
  (cEx.getEvent qEx "Foo").1.query = "" ∧
  (cEx.getEvent qEx "Foo").2.subscriptionEvents.lookup "Foo" =
    some (cEx.getEvent qEx "Foo").1 ∧
  (subscribeStep cEx (cEx.getEvent qEx "Foo").1 .deflt wOk).2.sentFrames =
    [{ frameType := "start", id := "1", payloadQuery := "" }] :=
  unknown_type_empty_query_spec qEx cEx "Foo" (by decide) (by decide) (by decide)
    rfl wOk rfl

/-- Counterexample to claim C1 as stated: a cycle whose connection open
(dial) fails is a transport-level failure, yet the engine terminates —
`subscribe` executes `return` instead of continuing to the next cycle. -/
theorem transport_error_nonfatal_cex :
  transportFailed wDialFail = true ∧
  (subscribeStep cEx evEx .deflt wDialFail).2.exit = true ∧
  LogEntry.dialError ∈ (subscribeStep cEx evEx .deflt wDialFail).2.logs := by
  decide

/-- Claim C1 as amended: a send or receive failure is logged and does not
terminate the engine — the cycle still ends with the fixed one-second pause
and the loop continues; a connection-open (dial) failure, however, is logged
and terminates the engine with nothing delivered. -/
theorem transport_error_spec (c : Client) (ev : Event) (w : TransportWorld) :
  (w.dialOk = true →
    (subscribeStep c ev .deflt w).2.exit = false ∧
    (subscribeStep c ev .deflt w).2.sleepSeconds = 1 ∧
    (w.sendOk = false → LogEntry.sendError ∈ (subscribeStep c ev .deflt w).2.logs) ∧
    (w.recvOk = false → LogEntry.receiveError ∈ (subscribeStep c ev .deflt w).2.logs)) ∧
  (w.dialOk = false →
    LogEntry.dialError ∈ (subscribeStep c ev .deflt w).2.logs ∧
    (subscribeStep c ev .deflt w).2.exit = true ∧
    (subscribeStep c ev .deflt w).2.delivered = []) := by
  obtain ⟨d, s, r, m⟩ := w
  cases d <;> cases s <;> cases r <;>
    simp [subscribeStep]

/-- Witness for the amended C1: with dial up but receive failing the engine
keeps going and pauses one second; with the dial failing it exits. -/
theorem transport_error_spec_witness :
  ((subscribeStep cEx evEx .deflt wRecvFail).2.exit = false ∧
   (subscribeStep cEx evEx .deflt wRecvFail).2.sleepSeconds = 1 ∧
   LogEntry.receiveError ∈ (subscribeStep cEx evEx .deflt wRecvFail).2.logs) ∧
  (subscribeStep cEx evEx .deflt wDialFail).2.exit = true :=
  ⟨⟨((transport_error_spec cEx evEx wRecvFail).1 rfl).1,
    ((transport_error_spec cEx evEx wRecvFail).1 rfl).2.1,
    ((transport_error_spec cEx evEx wRecvFail).1 rfl).2.2.2 rfl⟩,
   ((transport_error_spec cEx evEx wDialFail).2 rfl).2.1⟩

/-- Counterexample to claim C2 as stated: a cycle whose receive fails is a
failed transport round trip, yet the engine still increments the delivery
counter and delivers a ResponseData (wrapping the zero-value message). -/
theorem delivery_iff_success_cex :
  roundTripOk wRecvFail = false ∧
  (subscribeStep cEx evEx .deflt wRecvFail).1.count = evEx.count + 1 ∧
  (subscribeStep cEx evEx .deflt wRecvFail).2.delivered =
    [(DeliveryTarget.eventChannel,
      { host := "http://localhost:3085", typeName := "NewBlock",
        data := { msgType := "" } })] := by
  decide

/-- Claim C2 as amended: the counter is incremented by exactly 1 and exactly
one ResponseData is delivered (to the hub when the client has one, else to
the event channel) if and only if the connection open succeeds — send and
receive failures do not prevent the increment or the delivery; when the
dial fails nothing is delivered and the counter is unchanged; and under
every select choice the counter never decreases. -/
theorem delivery_count_spec (c : Client) (ev : Event) (choice : SelectChoice)
    (w : TransportWorld) :
  (((subscribeStep c ev .deflt w).1.count = ev.count + 1 ∧
    (subscribeStep c ev .deflt w).2.delivered ≠ []) ↔ w.dialOk = true) ∧
  (w.dialOk = true →
    (subscribeStep c ev .deflt w).2.delivered =
      [((if c.hasHub then .hub else .eventChannel),
        { host := c.endpoint, typeName := ev.typeName, data := w.recvMsg })]) ∧
  (w.dialOk = false →
    (subscribeStep c ev .deflt w).2.delivered = [] ∧
    (subscribeStep c ev .deflt w).1.count = ev.count) ∧
  ev.count ≤ (subscribeStep c ev choice w).1.count := by
  refine ⟨?_, ?_, ?_, ?_⟩
  · cases hd : w.dialOk <;> simp [subscribeStep, hd]
  · intro hd; simp [subscribeStep, hd]
  · intro hd; simp [subscribeStep, hd]
  · cases choice <;> cases hd : w.dialOk <;>
      simp [subscribeStep, hd]

/-- Witness for the amended C2 at a fully successful world and at a
dial-failure world. -/
theorem delivery_count_spec_witness :
  (subscribeStep cEx evEx .deflt wOk).2.delivered =
    [((if cEx.hasHub then .hub else .eventChannel),
      { host := cEx.endpoint, typeName := evEx.typeName, data := wOk.recvMsg })] ∧
  ((subscribeStep cEx evEx .deflt wDialFail).2.delivered = [] ∧
   (subscribeStep cEx evEx .deflt wDialFail).1.count = evEx.count) :=
  ⟨(delivery_count_spec cEx evEx .deflt wOk).2.1 rfl,
   (delivery_count_spec cEx evEx .deflt wDialFail).2.2.1 rfl⟩

/-- Counterexample to claim C3 as stated: with both the cancellation context
and the unsubscribe channel signalled, Go's select may pick the unsubscribe
case — a valid execution in which the engine does send the handshake
acknowledgment rather than exiting via the external-cancellation path. -/
theorem cancellation_priority_cex :
  validChoice true true .unsubscribeCase = true ∧
  (subscribeStep cEx evEx .unsubscribeCase wOk).2.ack = true ∧
  (subscribeStep cEx evEx .unsubscribeCase wOk).2.exit = true := by
  decide

/-- Claim C3 as amended: when both the external cancellation context and the
unsubscribe channel are signalled at the start of an iteration, every choice
Go's select may make is an exit path — the default delivery cycle is
impossible, the engine terminates with nothing delivered and the event
unchanged — but which of the two exit paths is taken (with or without the
handshake acknowledgment) is nondeterministic. -/
theorem both_signals_exit_spec (c : Client) (ev : Event) (w : TransportWorld)
    (choice : SelectChoice) (h : validChoice true true choice = true) :
  choice ≠ .deflt ∧
  (subscribeStep c ev choice w).2.exit = true ∧
  (subscribeStep c ev choice w).2.delivered = [] ∧
  (subscribeStep c ev choice w).1 = ev := by
  cases choice
  · simp [validChoice] at h
  · exact ⟨by simp, rfl, rfl, rfl⟩
  · exact ⟨by simp, rfl, rfl, rfl⟩

/-- Witness for the amended C3: the external-cancellation choice is valid
when both are signalled and exits. -/
theorem both_signals_exit_spec_witness :
  validChoice true true .ctxDoneCase = true ∧
  (subscribeStep cEx evEx .ctxDoneCase wOk).2.exit = true ∧
  (subscribeStep cEx evEx .ctxDoneCase wOk).1 = evEx :=
  ⟨rfl, (both_signals_exit_spec cEx evEx wOk .ctxDoneCase rfl).2.1,
   (both_signals_exit_spec cEx evEx wOk .ctxDoneCase rfl).2.2.2⟩

/-- An identity stripping function, standing for a `removeFromJsonString`
that removes nothing. -/
def stripEx : String → String := fun s => s

/-- A decoder that always succeeds, wrapping the raw text as the envelope. -/
def decodeOkEx : String → Option AbstractHttpResult := fun s => some { envelope := s }

/-- A decoder that always errors. -/
def decodeFailEx : String → Option AbstractHttpResult := fun _ => none

/-- Counterexample to claim C4 as stated: when decoding fails, the channel
receives `nil` but is never closed — the operations performed on the channel
are a single send with no close. -/
theorem oneshot_channel_cex :
  (getUniversalCh (.ok "not json") stripEx decodeFailEx).2 =
    .returned [ChanOp.send none] ∧
  ChanOp.close ∉ [ChanOp.send (none : Option AbstractHttpResult)] := by
  exact ⟨rfl, by decide⟩

/-- Claim C4 as amended: the returned channel always has capacity one and
receives exactly one value; on success that value is the decoded envelope
and the channel is then closed, while on a decode failure the value is nil
and the channel is left open; an HTTP-transport failure does not send nil —
it halts the whole process (the source's nil-on-HTTP-error branch is
unreachable because `makeHttpRequest` either halts or returns a nil error). -/
theorem getUniversalCh_spec (w : HttpOutcome) (strip : String → String)
    (decode : String → Option AbstractHttpResult) :
  (getUniversalCh w strip decode).1 = 1 ∧
  (w = .fatalHalt → (getUniversalCh w strip decode).2 = .halted) ∧
  (∀ body, w = .ok body → decode (strip body) = none →
    (getUniversalCh w strip decode).2 = .returned [.send none]) ∧
  (∀ body ds, w = .ok body → decode (strip body) = some ds →
    (getUniversalCh w strip decode).2 = .returned [.send (some ds), .close]) := by
  refine ⟨rfl, ?_, ?_, ?_⟩
  · intro h; subst h; rfl
  · intro body h hd; subst h; simp [getUniversalCh, getResponse, hd]
  · intro body ds h hd; subst h; simp [getUniversalCh, getResponse, hd]

/-- Witness for the amended C4 on each of the three paths: process halt,
successful decode (send then close), failing decode (send nil, no close). -/
theorem getUniversalCh_spec_witness :
  (getUniversalCh .fatalHalt stripEx decodeOkEx).1 = 1 ∧
  (getUniversalCh .fatalHalt stripEx decodeOkEx).2 = .halted ∧
  (getUniversalCh (.ok "{}") stripEx decodeOkEx).2 =
    .returned [.send (some { envelope := "{}" }), .close] ∧
  (getUniversalCh (.ok "{}") stripEx decodeFailEx).2 = .returned [.send none] :=
  ⟨(getUniversalCh_spec .fatalHalt stripEx decodeOkEx).1,
   (getUniversalCh_spec .fatalHalt stripEx decodeOkEx).2.1 rfl,
   (getUniversalCh_spec (.ok "{}") stripEx decodeOkEx).2.2.2 "{}"
     { envelope := "{}" } rfl rfl,
   (getUniversalCh_spec (.ok "{}") stripEx decodeFailEx).2.2.1 "{}" rfl rfl⟩

/-- Modelled from the spec's words, for comparison with `wsUrl`: substitute
only the endpoint's leading HTTP scheme prefix with the websocket scheme,
leaving the remainder of the URL unchanged. -/
def schemeOnlyWsUrl (endpoint : String) : String :=
  match endpoint.data with
  | 'h' :: 't' :: 't' :: 'p' :: rest => String.mk ('w' :: 's' :: rest)
  | _ => endpoint

/-- Counterexample to claim C5 as stated: on an endpoint whose host also
contains the substring `http`, the code rewrites that occurrence too, so the
derived URL differs from the scheme-only substitution. -/
theorem ws_url_scheme_only_cex :
  wsUrl "http://node.http.example" ≠ schemeOnlyWsUrl "http://node.http.example" ∧
  wsUrl "http://node.http.example" = "ws://node.ws.example" ∧
  schemeOnlyWsUrl "http://node.http.example" = "ws://node.http.example" := by
  refine ⟨by decide, by decide, by decide⟩

/-- Whether `http` occurs as a substring of the character list. -/
def hasHttpSub : List Char → Bool
  | 'h' :: 't' :: 't' :: 'p' :: _ => true
  | _ :: rest => hasHttpSub rest
  | [] => false

/-- On input without any `http` occurrence the replacement is the identity. -/
theorem replaceHttpWs_of_no_http :
    ∀ s : List Char, hasHttpSub s = false → replaceHttpWs s = s := by
  intro s
  induction s using replaceHttpWs.induct with
  | case1 rest ih =>
    intro h; simp [hasHttpSub] at h
  | case2 c rest hne ih =>
    intro h
    have h' : hasHttpSub rest = false := by
      rw [hasHttpSub] at h
      · exact h
      · exact hne
    rw [replaceHttpWs]
    · rw [ih h']
    · exact hne
  | case3 =>
    intro h; rfl

/-- Claim C5 as amended: the engine derives the streaming URL by replacing
every (non-overlapping, left-to-right) occurrence of `http` in the endpoint
with `ws`, not only the scheme prefix; in particular, when the endpoint
starts with `http` and the remainder contains no further `http` occurrence,
the derivation coincides with the scheme-only substitution, yielding `ws`
followed by the unchanged remainder. -/
theorem ws_url_spec (rest : List Char) (h : hasHttpSub rest = false) :
  wsUrl (String.mk ('h' :: 't' :: 't' :: 'p' :: rest)) = String.mk ('w' :: 's' :: rest) ∧
  wsUrl (String.mk ('h' :: 't' :: 't' :: 'p' :: rest)) =
    schemeOnlyWsUrl (String.mk ('h' :: 't' :: 't' :: 'p' :: rest)) := by
  have hr : replaceHttpWs ('h' :: 't' :: 't' :: 'p' :: rest) = 'w' :: 's' :: rest := by
    rw [replaceHttpWs, replaceHttpWs_of_no_http rest h]
  exact ⟨congrArg String.mk hr, congrArg String.mk hr⟩

/-- Witness for the amended C5 on the usual local-daemon endpoint. -/
theorem ws_url_spec_witness :
  hasHttpSub ("://localhost:3085".data) = false ∧
  wsUrl (String.mk ('h' :: 't' :: 't' :: 'p' :: "://localhost:3085".data)) =
    String.mk ('w' :: 's' :: "://localhost:3085".data) :=
  ⟨by decide, (ws_url_spec ("://localhost:3085".data) (by decide)).1⟩

/-- Witness for C7: a first lookup of NewBlock on an empty registry creates
a zeroed, unsubscribed event, and the second lookup returns the identical
instance with the registry unchanged (exercising both the absent-entry and
present-entry hypotheses). -/
theorem getEvent_registry_spec_witness :
  (cEx.getEvent qEx "NewBlock").1.count = 0 ∧
  (cEx.getEvent qEx "NewBlock").1.subscribed = false ∧
  (cEx.getEvent qEx "NewBlock").1.query = subscriptionEventsQueries qEx "NewBlock" ∧
  (cEx.getEvent qEx "NewBlock").2.getEvent qEx "NewBlock" =
    ((cEx.getEvent qEx "NewBlock").1, (cEx.getEvent qEx "NewBlock").2) :=
  ⟨((getEvent_registry_spec qEx cEx "NewBlock").2.2.1 rfl).2.1,
   ((getEvent_registry_spec qEx cEx "NewBlock").2.2.1 rfl).2.2.1,
   ((getEvent_registry_spec qEx cEx "NewBlock").2.2.1 rfl).2.2.2.1,
   (getEvent_registry_spec qEx (cEx.getEvent qEx "NewBlock").2 "NewBlock").2.2.2
     (cEx.getEvent qEx "NewBlock").1
     ((getEvent_registry_spec qEx cEx "NewBlock").1)⟩
